import Mathlib

/-!
Verification of the protoc-gen-pluginexample plugin core (src/main.go).

The Go program decodes a `CodeGeneratorRequest`, runs three generators
(`recordRequest`, `recordStats`, `generateGraph`) and assembles a
`CodeGeneratorResponse` holding three named files.  This file gives a
shallow embedding of the descriptor data model and of those functions,
and proves the documented properties about them.
-/

namespace PluginExample

/-! ## Descriptor data model

Mirrors the proto descriptor messages as the Go code accesses them
(through `Get*` accessors, so absent optional fields read as their zero
values): `FieldDescriptorProto` (name, number, type tag, type name),
`DescriptorProto` (name, fields, nested messages — a nested inductive),
`MethodDescriptorProto`, `ServiceDescriptorProto`, `FileDescriptorProto`,
and the plugin request/response types from pluginpb. -/

structure FieldDescriptorProto where
  name : String
  number : Nat
  type : Nat
  typeName : String
deriving DecidableEq, Repr

/-- Value of `descriptorpb.FieldDescriptorProto_TYPE_MESSAGE`. -/
def TYPE_MESSAGE : Nat := 11

/-- Value of `descriptorpb.FieldDescriptorProto_TYPE_ENUM`. -/
def TYPE_ENUM : Nat := 14

inductive DescriptorProto where
  | mk (name : String) (field : List FieldDescriptorProto)
       (nestedType : List DescriptorProto)
deriving Repr

def DescriptorProto.name : DescriptorProto → String
  | .mk n _ _ => n

def DescriptorProto.field : DescriptorProto → List FieldDescriptorProto
  | .mk _ f _ => f

def DescriptorProto.nestedType : DescriptorProto → List DescriptorProto
  | .mk _ _ ns => ns

structure MethodDescriptorProto where
  name : String
  inputType : String
  outputType : String
deriving DecidableEq, Repr

structure ServiceDescriptorProto where
  name : String
  method : List MethodDescriptorProto
deriving DecidableEq, Repr

structure FileDescriptorProto where
  name : String
  package : String
  messageType : List DescriptorProto
  service : List ServiceDescriptorProto
deriving Repr

structure CodeGeneratorRequest where
  fileToGenerate : List String
  parameter : String
  protoFile : List FileDescriptorProto
deriving Repr

structure CodeGeneratorResponse_File where
  name : String
  content : String
deriving DecidableEq, Repr

/-- Value of `pluginpb.CodeGeneratorResponse_FEATURE_PROTO3_OPTIONAL`. -/
def FEATURE_PROTO3_OPTIONAL : Nat := 1

structure CodeGeneratorResponse where
  supportedFeatures : Nat
  file : List CodeGeneratorResponse_File
deriving DecidableEq, Repr

/-! ## Go `%q` string formatting

`fmt.Fprintf(w, "%q", s)` quotes `s` with `strconv.Quote` semantics:
the string is wrapped in double quotes, `"` and `\` are backslash
escaped, printable ASCII passes through, the named control escapes are
used for the usual control characters, and remaining characters get a
numeric escape. -/

def hexDigit (n : Nat) : Char :=
  if n < 10 then Char.ofNat (48 + n) else Char.ofNat (87 + (n - 10))

def hex4 (n : Nat) : String :=
  String.mk [hexDigit (n / 4096 % 16), hexDigit (n / 256 % 16),
             hexDigit (n / 16 % 16), hexDigit (n % 16)]

def goEscapeChar (c : Char) : String :=
  if c = '"' then "\\\""
  else if c = '\\' then "\\\\"
  else if 0x20 ≤ c.toNat ∧ c.toNat ≤ 0x7e then String.mk [c]
  else if c = '\x07' then "\\a"
  else if c = '\x08' then "\\b"
  else if c = '\x0c' then "\\f"
  else if c = '\n' then "\\n"
  else if c = '\r' then "\\r"
  else if c = '\t' then "\\t"
  else if c = '\x0b' then "\\v"
  else if c.toNat < 0x80 then "\\x" ++ String.mk [hexDigit (c.toNat / 16), hexDigit (c.toNat % 16)]
  else if c.toNat < 0x10000 then "\\u" ++ hex4 c.toNat
  else c.toString

def goQuote (s : String) : String :=
  "\"" ++ String.join (s.data.map goEscapeChar) ++ "\""

/-! ## recordStats (src/main.go lines 104-139)

The Go function folds over the request accumulating five counters in an
anonymous struct, then renders them to a fixed text layout.  `fileStats`
is the body of the outer `for _, f := range req.GetProtoFile()` loop. -/

structure Stats where
  numFiles : Nat
  numServices : Nat
  numMethods : Nat
  numMessages : Nat
  numFields : Nat
deriving DecidableEq, Repr

def serviceStatsStep (st : Stats) (srv : ServiceDescriptorProto) : Stats :=
  { st with numServices := st.numServices + 1,
            numMethods := st.numMethods + srv.method.length }

def messageStatsStep (st : Stats) (msg : DescriptorProto) : Stats :=
  -- note (from the source): this doesn't attribute nested messages
  { st with numMessages := st.numMessages + 1,
            numFields := st.numFields + msg.field.length }

def fileStatsStep (st : Stats) (f : FileDescriptorProto) : Stats :=
  let st := { st with numFiles := st.numFiles + 1 }
  let st := f.service.foldl serviceStatsStep st
  f.messageType.foldl messageStatsStep st

def computeStats (req : CodeGeneratorRequest) : Stats :=
  req.protoFile.foldl fileStatsStep ⟨0, 0, 0, 0, 0⟩

def statsContent (stats : Stats) : String :=
  "stats for code generation request\n"
    ++ "num files: " ++ toString stats.numFiles ++ "\n"
    ++ "num services: " ++ toString stats.numServices ++ "\n"
    ++ "num methods: " ++ toString stats.numMethods ++ "\n"
    ++ "num messages: " ++ toString stats.numMessages ++ "\n"
    ++ "num fields: " ++ toString stats.numFields ++ "\n"

def recordStats (req : CodeGeneratorRequest) :
    Except String CodeGeneratorResponse_File :=
  .ok { name := "request_stats.txt", content := statsContent (computeStats req) }

/-! ## generateGraph (src/main.go lines 143-187)

The Go function owns two accumulation buffers (`nodeBuf` for node
declarations, `vertexBuf` for edges); each `Fprintf` appends exactly one
newline-terminated line, so a buffer is embedded as the list of its
lines and its final contents is `String.join` of that list.
`generateGraphMessages` receives both buffers and is recursive over the
nested-message tree. -/

/-- A pair of accumulation buffers (`nodeBuf` lines, `vertexBuf` lines). -/
abbrev Buffers := List String × List String

mutual

def generateGraphMessages : DescriptorProto → String → Buffers → Buffers
  | .mk nm fields nested, pre, bufs =>
    let qName := pre ++ "." ++ nm
    let nbuf := bufs.1 ++ [goQuote qName ++ " [shape=square]\n"]
    let vbuf := fields.foldl (fun vbuf field =>
      if field.type = TYPE_MESSAGE ∧ field.typeName ≠ "" then
        vbuf ++ [goQuote qName ++ " -> " ++ goQuote field.typeName ++ "\n"]
      else vbuf) bufs.2
    generateGraphMessagesList nested qName (nbuf, vbuf)

def generateGraphMessagesList : List DescriptorProto → String → Buffers → Buffers
  | [], _, bufs => bufs
  | child :: rest, pre, bufs =>
    generateGraphMessagesList rest pre (generateGraphMessages child pre bufs)

end

/-- Body of the `for _, meth := range srv.GetMethod()` loop. -/
def methodGraphStep (qService : String) (bufs : Buffers)
    (meth : MethodDescriptorProto) : Buffers :=
  let qName := qService ++ "." ++ meth.name
  (bufs.1 ++ [goQuote qName ++ " [shape=circle]\n"],
   bufs.2 ++ [goQuote qService ++ " -> " ++ goQuote qName ++ " [style=dashed]\n",
              goQuote qName ++ " -> " ++ goQuote meth.inputType
                ++ " [style=dashed, color=red]\n",
              goQuote qName ++ " -> " ++ goQuote meth.outputType
                ++ " [style=dashed, color=blue]\n"])

/-- Body of the `for _, srv := range f.GetService()` loop. -/
def serviceGraphStep (pkg : String) (bufs : Buffers)
    (srv : ServiceDescriptorProto) : Buffers :=
  let qService := "." ++ pkg ++ "." ++ srv.name
  let bufs := (bufs.1 ++ [goQuote qService ++ " [shape=diamond]\n"], bufs.2)
  srv.method.foldl (methodGraphStep qService) bufs

/-- Body of the `for _, f := range req.GetProtoFile()` loop. -/
def fileGraphStep (bufs : Buffers) (f : FileDescriptorProto) : Buffers :=
  let bufs := f.service.foldl (serviceGraphStep f.package) bufs
  f.messageType.foldl
    (fun bufs m => generateGraphMessages m ("." ++ f.package) bufs) bufs

def graphBuffers (req : CodeGeneratorRequest) : Buffers :=
  req.protoFile.foldl fileGraphStep ([], [])

/-- The node-declaration lines of the graph artifact (`nodeBuf`). -/
def graphNodeLines (req : CodeGeneratorRequest) : List String :=
  (graphBuffers req).1

/-- The edge lines of the graph artifact (`vertexBuf`). -/
def graphEdgeLines (req : CodeGeneratorRequest) : List String :=
  (graphBuffers req).2

def generateGraph (req : CodeGeneratorRequest) :
    Except String CodeGeneratorResponse_File :=
  .ok { name := "entity_graph.dot",
        content := "digraph entities \x7b\n\n" ++ String.join (graphNodeLines req)
          ++ "\n" ++ String.join (graphEdgeLines req) ++ "\n\x7d" }

/-! ## recordRequest (src/main.go lines 95-101)

`recordRequest` delegates the whole serialization to
`protojson.Format`, a library external to this repository.  The dump
encoding is therefore modelled from the spec (§4.3): a canonical,
structured, human-readable JSON text whose only degree of freedom is
whitespace/formatting.  Whitespace-insensitivity is captured by working
with a JSON syntax tree plus a deterministic renderer. -/

inductive Json where
  | str : String → Json
  | num : Nat → Json
  | arr : List Json → Json
  | obj : List (String × Json) → Json
deriving Repr

mutual

def Json.render : Json → String
  | .str s => goQuote s
  | .num n => toString n
  | .arr xs => "[" ++ Json.renderArr xs ++ "]"
  | .obj fs => "\x7b" ++ Json.renderObj fs ++ "\x7d"

def Json.renderArr : List Json → String
  | [] => ""
  | [x] => Json.render x
  | x :: rest => Json.render x ++ ", " ++ Json.renderArr rest

def Json.renderObj : List (String × Json) → String
  | [] => ""
  | [(k, v)] => goQuote k ++ ": " ++ Json.render v
  | (k, v) :: rest => goQuote k ++ ": " ++ Json.render v ++ ", " ++ Json.renderObj rest

end

/-- Modelled from the spec: `protojson.Format` applied to one
`FieldDescriptorProto` (the library serializer is not part of this
repository); every field of the model is emitted. -/
def fieldDescriptorToJson (fd : FieldDescriptorProto) : Json :=
  .obj [("name", .str fd.name), ("number", .num fd.number),
        ("type", .num fd.type), ("typeName", .str fd.typeName)]

mutual

/-- Modelled from the spec: `protojson.Format` applied to one
`DescriptorProto`, recursing into the nested-message tree. -/
def messageToJson : DescriptorProto → Json
  | .mk nm fields nested =>
    .obj [("name", .str nm),
          ("field", .arr (fields.map fieldDescriptorToJson)),
          ("nestedType", .arr (messageToJsonList nested))]

def messageToJsonList : List DescriptorProto → List Json
  | [] => []
  | m :: rest => messageToJson m :: messageToJsonList rest

end

def methodToJson (m : MethodDescriptorProto) : Json :=
  .obj [("name", .str m.name), ("inputType", .str m.inputType),
        ("outputType", .str m.outputType)]

def serviceToJson (s : ServiceDescriptorProto) : Json :=
  .obj [("name", .str s.name), ("method", .arr (s.method.map methodToJson))]

def fileToJson (f : FileDescriptorProto) : Json :=
  .obj [("name", .str f.name), ("package", .str f.package),
        ("messageType", .arr (messageToJsonList f.messageType)),
        ("service", .arr (f.service.map serviceToJson))]

/-- Modelled from the spec: `protojson.Format` applied to the whole
`CodeGeneratorRequest`. -/
def requestToJson (req : CodeGeneratorRequest) : Json :=
  .obj [("fileToGenerate", .arr (req.fileToGenerate.map Json.str)),
        ("parameter", .str req.parameter),
        ("protoFile", .arr (req.protoFile.map fileToJson))]

def recordRequest (req : CodeGeneratorRequest) :
    Except String CodeGeneratorResponse_File :=
  .ok { name := "request_dump.json", content := (requestToJson req).render }

/-! ### Parsing the dump back (the spec's round-trip reading) -/

def jsonToStringList : List Json → Option (List String)
  | [] => some []
  | .str s :: rest => (jsonToStringList rest).map (s :: ·)
  | _ => none

def jsonToFieldDescriptor : Json → Option FieldDescriptorProto
  | .obj [("name", .str n), ("number", .num num),
          ("type", .num ty), ("typeName", .str tn)] => some ⟨n, num, ty, tn⟩
  | _ => none

def jsonToFieldList : List Json → Option (List FieldDescriptorProto)
  | [] => some []
  | j :: rest =>
    match jsonToFieldDescriptor j, jsonToFieldList rest with
    | some fd, some fds => some (fd :: fds)
    | _, _ => none

mutual

def jsonToMessage : Json → Option DescriptorProto
  | .obj [("name", .str n), ("field", .arr fs), ("nestedType", .arr ns)] =>
    match jsonToFieldList fs, jsonToMessageList ns with
    | some fds, some msgs => some (.mk n fds msgs)
    | _, _ => none
  | _ => none

def jsonToMessageList : List Json → Option (List DescriptorProto)
  | [] => some []
  | j :: rest =>
    match jsonToMessage j, jsonToMessageList rest with
    | some m, some ms => some (m :: ms)
    | _, _ => none

end

def jsonToMethod : Json → Option MethodDescriptorProto
  | .obj [("name", .str n), ("inputType", .str i), ("outputType", .str o)] =>
    some ⟨n, i, o⟩
  | _ => none

def jsonToMethodList : List Json → Option (List MethodDescriptorProto)
  | [] => some []
  | j :: rest =>
    match jsonToMethod j, jsonToMethodList rest with
    | some m, some ms => some (m :: ms)
    | _, _ => none

def jsonToService : Json → Option ServiceDescriptorProto
  | .obj [("name", .str n), ("method", .arr ms)] =>
    (jsonToMethodList ms).map (⟨n, ·⟩)
  | _ => none

def jsonToServiceList : List Json → Option (List ServiceDescriptorProto)
  | [] => some []
  | j :: rest =>
    match jsonToService j, jsonToServiceList rest with
    | some s, some ss => some (s :: ss)
    | _, _ => none

def jsonToFile : Json → Option FileDescriptorProto
  | .obj [("name", .str n), ("package", .str p),
          ("messageType", .arr ms), ("service", .arr ss)] =>
    match jsonToMessageList ms, jsonToServiceList ss with
    | some msgs, some svcs => some ⟨n, p, msgs, svcs⟩
    | _, _ => none
  | _ => none

def jsonToFileList : List Json → Option (List FileDescriptorProto)
  | [] => some []
  | j :: rest =>
    match jsonToFile j, jsonToFileList rest with
    | some f, some fs => some (f :: fs)
    | _, _ => none

def jsonToRequest : Json → Option CodeGeneratorRequest
  | .obj [("fileToGenerate", .arr gs), ("parameter", .str p),
          ("protoFile", .arr fs)] =>
    match jsonToStringList gs, jsonToFileList fs with
    | some gen, some files => some ⟨gen, p, files⟩
    | _, _ => none
  | _ => none

/-! ## processRequest (src/main.go lines 62-91) -/

def processRequest (req : CodeGeneratorRequest) :
    Except String CodeGeneratorResponse :=
  let resp : CodeGeneratorResponse :=
    { supportedFeatures := FEATURE_PROTO3_OPTIONAL, file := [] }
  match recordRequest req with
  | .error e => .error ("recordRequest failed: " ++ e)
  | .ok f =>
    let resp := { resp with file := resp.file ++ [f] }
    match recordStats req with
    | .error e => .error ("recordRequest failed: " ++ e)
    | .ok f =>
      let resp := { resp with file := resp.file ++ [f] }
      match generateGraph req with
      | .error e => .error ("recordRequest failed: " ++ e)
      | .ok f => .ok { resp with file := resp.file ++ [f] }

/-! ## Spec-side descriptions of the graph artifact

These definitions follow the wording of the spec (§4.5): one diamond
node per service, one circle node per method, one square node per
message at every nesting depth, three styled edges per method, one plain
edge per message-typed field with a non-empty type reference.  They are
deliberately phrased with `map`/`flatMap` over the entities rather than
with the source's accumulator-passing folds; the theorems below prove
the source buffers equal to them. -/

def diamondNodeLine (q : String) : String := goQuote q ++ " [shape=diamond]\n"

def circleNodeLine (q : String) : String := goQuote q ++ " [shape=circle]\n"

def squareNodeLine (q : String) : String := goQuote q ++ " [shape=square]\n"

def refEdgeLine (q tn : String) : String := goQuote q ++ " -> " ++ goQuote tn ++ "\n"

/-- The three styled edges the spec requires for one method. -/
def methodEdgeLines (qService : String) (meth : MethodDescriptorProto) :
    List String :=
  [goQuote qService ++ " -> " ++ goQuote (qService ++ "." ++ meth.name)
     ++ " [style=dashed]\n",
   goQuote (qService ++ "." ++ meth.name) ++ " -> " ++ goQuote meth.inputType
     ++ " [style=dashed, color=red]\n",
   goQuote (qService ++ "." ++ meth.name) ++ " -> " ++ goQuote meth.outputType
     ++ " [style=dashed, color=blue]\n"]

/-- The plain reference edges of one message: one per field whose type
tag is "message" and whose type reference is non-empty. -/
def messageFieldEdges (q : String) (fields : List FieldDescriptorProto) :
    List String :=
  fields.filterMap (fun fd =>
    if fd.type = TYPE_MESSAGE ∧ fd.typeName ≠ "" then
      some (refEdgeLine q fd.typeName)
    else none)

mutual

/-- Every message of a tree together with its qualified name, computed
by recursively prefixing the parent's qualified name; depth-first,
parent before children, children in declared order. -/
def qualifiedMessages : DescriptorProto → String → List (String × DescriptorProto)
  | .mk nm fields nested, pre =>
    (pre ++ "." ++ nm, .mk nm fields nested)
      :: qualifiedMessagesList nested (pre ++ "." ++ nm)

def qualifiedMessagesList : List DescriptorProto → String → List (String × DescriptorProto)
  | [], _ => []
  | m :: rest, pre => qualifiedMessages m pre ++ qualifiedMessagesList rest pre

end

def specMessageNodes (pre : String) (m : DescriptorProto) : List String :=
  (qualifiedMessages m pre).map (fun p => squareNodeLine p.1)

def specMessageEdges (pre : String) (m : DescriptorProto) : List String :=
  (qualifiedMessages m pre).flatMap (fun p => messageFieldEdges p.1 p.2.field)

def qualifiedServiceName (pkg : String) (srv : ServiceDescriptorProto) : String :=
  "." ++ pkg ++ "." ++ srv.name

def specServiceNodes (pkg : String) (srv : ServiceDescriptorProto) : List String :=
  diamondNodeLine (qualifiedServiceName pkg srv)
    :: srv.method.map (fun meth =>
         circleNodeLine (qualifiedServiceName pkg srv ++ "." ++ meth.name))

def specServiceEdges (pkg : String) (srv : ServiceDescriptorProto) : List String :=
  srv.method.flatMap (methodEdgeLines (qualifiedServiceName pkg srv))

def specFileNodes (f : FileDescriptorProto) : List String :=
  f.service.flatMap (specServiceNodes f.package)
    ++ f.messageType.flatMap (fun m => specMessageNodes ("." ++ f.package) m)

def specFileEdges (f : FileDescriptorProto) : List String :=
  f.service.flatMap (specServiceEdges f.package)
    ++ f.messageType.flatMap (fun m => specMessageEdges ("." ++ f.package) m)

def specNodes (req : CodeGeneratorRequest) : List String :=
  req.protoFile.flatMap specFileNodes

def specEdges (req : CodeGeneratorRequest) : List String :=
  req.protoFile.flatMap specFileEdges

/-! ## Characterizing the graph buffers -/

theorem fieldEdgeFold_eq (qName : String) (fields : List FieldDescriptorProto)
    (vbuf : List String) :
    fields.foldl (fun vbuf field =>
        if field.type = TYPE_MESSAGE ∧ field.typeName ≠ "" then
          vbuf ++ [goQuote qName ++ " -> " ++ goQuote field.typeName ++ "\n"]
        else vbuf) vbuf
      = vbuf ++ messageFieldEdges qName fields := by
  induction fields generalizing vbuf with
  | nil => simp [messageFieldEdges]
  | cons fd rest ih =>
    by_cases h : fd.type = TYPE_MESSAGE ∧ fd.typeName ≠ ""
    · simp [messageFieldEdges, h, ih, refEdgeLine, List.filterMap_cons]
    · simp [messageFieldEdges, h, ih, List.filterMap_cons]

mutual

theorem generateGraphMessages_eq :
    ∀ (dp : DescriptorProto) (pre : String) (bufs : Buffers),
    generateGraphMessages dp pre bufs
      = (bufs.1 ++ specMessageNodes pre dp, bufs.2 ++ specMessageEdges pre dp)
  | .mk nm fields nested, pre, bufs => by
    rw [generateGraphMessages, fieldEdgeFold_eq,
        generateGraphMessagesList_eq nested (pre ++ "." ++ nm)]
    simp [specMessageNodes, specMessageEdges, qualifiedMessages, squareNodeLine,
          DescriptorProto.field, List.map_append, List.flatMap_append,
          List.append_assoc]

theorem generateGraphMessagesList_eq :
    ∀ (l : List DescriptorProto) (pre : String) (bufs : Buffers),
    generateGraphMessagesList l pre bufs
      = (bufs.1 ++ (qualifiedMessagesList l pre).map (fun p => squareNodeLine p.1),
         bufs.2 ++ (qualifiedMessagesList l pre).flatMap
           (fun p => messageFieldEdges p.1 p.2.field))
  | [], _, bufs => by simp [generateGraphMessagesList, qualifiedMessagesList]
  | m :: rest, pre, bufs => by
    rw [generateGraphMessagesList, generateGraphMessages_eq m pre,
        generateGraphMessagesList_eq rest pre]
    simp [qualifiedMessagesList, specMessageNodes, specMessageEdges,
          List.map_append, List.flatMap_append, List.append_assoc]

end

theorem methodFold_eq (qService : String) (meths : List MethodDescriptorProto)
    (bufs : Buffers) :
    meths.foldl (methodGraphStep qService) bufs
      = (bufs.1 ++ meths.map (fun meth => circleNodeLine (qService ++ "." ++ meth.name)),
         bufs.2 ++ meths.flatMap (methodEdgeLines qService)) := by
  induction meths generalizing bufs with
  | nil => simp
  | cons meth rest ih =>
    simp [methodGraphStep, ih, circleNodeLine, methodEdgeLines, List.append_assoc]

theorem serviceGraphStep_eq (pkg : String) (bufs : Buffers)
    (srv : ServiceDescriptorProto) :
    serviceGraphStep pkg bufs srv
      = (bufs.1 ++ specServiceNodes pkg srv, bufs.2 ++ specServiceEdges pkg srv) := by
  rw [serviceGraphStep, methodFold_eq]
  simp [specServiceNodes, specServiceEdges, qualifiedServiceName, diamondNodeLine,
        List.append_assoc]

theorem serviceFold_eq (pkg : String) (svcs : List ServiceDescriptorProto)
    (bufs : Buffers) :
    svcs.foldl (serviceGraphStep pkg) bufs
      = (bufs.1 ++ svcs.flatMap (specServiceNodes pkg),
         bufs.2 ++ svcs.flatMap (specServiceEdges pkg)) := by
  induction svcs generalizing bufs with
  | nil => simp
  | cons srv rest ih =>
    simp [serviceGraphStep_eq, ih, List.append_assoc]

theorem messageFold_eq (pre : String) (msgs : List DescriptorProto)
    (bufs : Buffers) :
    msgs.foldl (fun bufs m => generateGraphMessages m pre bufs) bufs
      = (bufs.1 ++ msgs.flatMap (specMessageNodes pre),
         bufs.2 ++ msgs.flatMap (specMessageEdges pre)) := by
  induction msgs generalizing bufs with
  | nil => simp
  | cons m rest ih =>
    rw [List.foldl_cons, generateGraphMessages_eq, ih]
    simp [List.append_assoc]

theorem fileGraphStep_eq (bufs : Buffers) (f : FileDescriptorProto) :
    fileGraphStep bufs f
      = (bufs.1 ++ specFileNodes f, bufs.2 ++ specFileEdges f) := by
  rw [fileGraphStep, serviceFold_eq, messageFold_eq]
  simp [specFileNodes, specFileEdges, List.append_assoc]

theorem graphBuffers_eq (req : CodeGeneratorRequest) :
    graphBuffers req = (specNodes req, specEdges req) := by
  rw [graphBuffers]
  have h : ∀ (files : List FileDescriptorProto) (bufs : Buffers),
      files.foldl fileGraphStep bufs
        = (bufs.1 ++ files.flatMap specFileNodes,
           bufs.2 ++ files.flatMap specFileEdges) := by
    intro files
    induction files with
    | nil => simp
    | cons f rest ih => intro bufs; simp [fileGraphStep_eq, ih, List.append_assoc]
  simp [h, specNodes, specEdges]

theorem graphNodeLines_eq (req : CodeGeneratorRequest) :
    graphNodeLines req = specNodes req := by
  simp [graphNodeLines, graphBuffers_eq]

theorem graphEdgeLines_eq (req : CodeGeneratorRequest) :
    graphEdgeLines req = specEdges req := by
  simp [graphEdgeLines, graphBuffers_eq]

/-! ## Aggregate counts of the descriptor model -/

/-- Number of services, summed over the files. -/
def serviceTotal (req : CodeGeneratorRequest) : Nat :=
  (req.protoFile.map (fun f => f.service.length)).sum

/-- Number of methods, summed over the services of every file. -/
def methodTotal (req : CodeGeneratorRequest) : Nat :=
  (req.protoFile.map (fun f => (f.service.map (fun s => s.method.length)).sum)).sum

/-- Number of top-level messages, summed over the files. -/
def topLevelMessageTotal (req : CodeGeneratorRequest) : Nat :=
  (req.protoFile.map (fun f => f.messageType.length)).sum

/-- Number of direct fields of top-level messages, summed over the files. -/
def topLevelFieldTotal (req : CodeGeneratorRequest) : Nat :=
  (req.protoFile.map
    (fun f => (f.messageType.map (fun m => m.field.length)).sum)).sum

/-- Every message of the request at every nesting depth, with its
qualified name. -/
def allQualifiedMessages (req : CodeGeneratorRequest) :
    List (String × DescriptorProto) :=
  req.protoFile.flatMap (fun f =>
    f.messageType.flatMap (fun m => qualifiedMessages m ("." ++ f.package)))

/-- Number of messages at every nesting depth. -/
def messageTotal (req : CodeGeneratorRequest) : Nat :=
  (allQualifiedMessages req).length

/-- Number of fields whose type tag is "message" and whose type
reference is non-empty (over every message at every depth). -/
def refFieldCount (fields : List FieldDescriptorProto) : Nat :=
  (fields.filter (fun fd => decide (fd.type = TYPE_MESSAGE ∧ fd.typeName ≠ ""))).length

def refFieldTotal (req : CodeGeneratorRequest) : Nat :=
  ((allQualifiedMessages req).map (fun p => refFieldCount p.2.field)).sum

/-! ## Characterizing computeStats -/

theorem serviceStatsFold_eq (svcs : List ServiceDescriptorProto) (st : Stats) :
    svcs.foldl serviceStatsStep st
      = { st with numServices := st.numServices + svcs.length,
                  numMethods :=
                    st.numMethods + (svcs.map (fun s => s.method.length)).sum } := by
  induction svcs generalizing st with
  | nil => simp
  | cons s rest ih =>
    cases st
    simp [serviceStatsStep, ih, Stats.mk.injEq]
    omega

theorem messageStatsFold_eq (msgs : List DescriptorProto) (st : Stats) :
    msgs.foldl messageStatsStep st
      = { st with numMessages := st.numMessages + msgs.length,
                  numFields :=
                    st.numFields + (msgs.map (fun m => m.field.length)).sum } := by
  induction msgs generalizing st with
  | nil => simp
  | cons m rest ih =>
    cases st
    simp [messageStatsStep, ih, Stats.mk.injEq]
    omega

theorem fileStatsFold_eq (files : List FileDescriptorProto) (st : Stats) :
    files.foldl fileStatsStep st
      = { numFiles := st.numFiles + files.length,
          numServices := st.numServices + (files.map (fun f => f.service.length)).sum,
          numMethods := st.numMethods
            + (files.map (fun f => (f.service.map (fun s => s.method.length)).sum)).sum,
          numMessages := st.numMessages + (files.map (fun f => f.messageType.length)).sum,
          numFields := st.numFields
            + (files.map (fun f => (f.messageType.map (fun m => m.field.length)).sum)).sum } := by
  induction files generalizing st with
  | nil => simp
  | cons f rest ih =>
    cases st
    rw [List.foldl_cons, fileStatsStep, serviceStatsFold_eq, messageStatsFold_eq, ih]
    simp [Stats.mk.injEq]
    omega

theorem computeStats_eq (req : CodeGeneratorRequest) :
    computeStats req
      = { numFiles := req.protoFile.length,
          numServices := serviceTotal req,
          numMethods := methodTotal req,
          numMessages := topLevelMessageTotal req,
          numFields := topLevelFieldTotal req } := by
  rw [computeStats, fileStatsFold_eq]
  simp [serviceTotal, methodTotal, topLevelMessageTotal, topLevelFieldTotal]

/-! ## Length lemmas for the graph artifact -/

theorem length_messageFieldEdges (q : String) (fields : List FieldDescriptorProto) :
    (messageFieldEdges q fields).length = refFieldCount fields := by
  induction fields with
  | nil => simp [messageFieldEdges, refFieldCount]
  | cons fd rest ih =>
    by_cases h : fd.type = TYPE_MESSAGE ∧ fd.typeName ≠ ""
    · simp [messageFieldEdges, refFieldCount, List.filterMap_cons, List.filter_cons, h] at ih ⊢
      omega
    · simp [messageFieldEdges, refFieldCount, List.filterMap_cons, List.filter_cons, h] at ih ⊢
      exact ih

theorem length_specMessageEdges (pre : String) (m : DescriptorProto) :
    (specMessageEdges pre m).length
      = ((qualifiedMessages m pre).map (fun p => refFieldCount p.2.field)).sum := by
  simp [specMessageEdges, List.length_flatMap, length_messageFieldEdges, Function.comp_def]

theorem length_specServiceEdges (pkg : String) (srv : ServiceDescriptorProto) :
    (specServiceEdges pkg srv).length = 3 * srv.method.length := by
  simp only [specServiceEdges, List.length_flatMap]
  induction srv.method with
  | nil => simp
  | cons meth rest ih =>
    simp [methodEdgeLines, Function.comp_def] at ih ⊢
    omega

theorem sum_map_flatMap {α β : Type} (l : List α) (f : α → List β) (g : β → Nat) :
    ((l.flatMap f).map g).sum = (l.map (fun a => ((f a).map g).sum)).sum := by
  induction l with
  | nil => rfl
  | cons a rest ih =>
    simp only [List.flatMap_cons, List.map_append, List.sum_append, ih,
               List.map_cons, List.sum_cons]

theorem sum_map_mul_const {α : Type} (l : List α) (f : α → Nat) (c : Nat) :
    (l.map (fun a => c * f a)).sum = c * (l.map f).sum := by
  induction l with
  | nil => simp
  | cons a rest ih =>
    simp only [List.map_cons, List.sum_cons, ih]
    ring

theorem sum_map_add_fun {α : Type} (l : List α) (f g : α → Nat) :
    (l.map (fun a => f a + g a)).sum = (l.map f).sum + (l.map g).sum := by
  induction l with
  | nil => simp
  | cons a rest ih =>
    simp only [List.map_cons, List.sum_cons, ih]
    omega

theorem sum_map_one {α : Type} (l : List α) :
    (l.map (fun _ => 1)).sum = l.length := by
  induction l with
  | nil => rfl
  | cons a rest ih => simp only [List.map_cons, List.sum_cons, ih, List.length_cons]; omega

theorem length_specFileEdges (f : FileDescriptorProto) :
    (specFileEdges f).length
      = 3 * (f.service.map (fun s => s.method.length)).sum
        + ((f.messageType.flatMap (fun m => qualifiedMessages m ("." ++ f.package))).map
            (fun p => refFieldCount p.2.field)).sum := by
  simp only [specFileEdges, List.length_append, List.length_flatMap, Function.comp_def,
             length_specServiceEdges, length_specMessageEdges]
  rw [sum_map_mul_const, sum_map_flatMap]

theorem length_specEdges (req : CodeGeneratorRequest) :
    (specEdges req).length = 3 * methodTotal req + refFieldTotal req := by
  simp only [specEdges, List.length_flatMap, Function.comp_def, length_specFileEdges]
  rw [sum_map_add_fun, sum_map_mul_const]
  simp only [methodTotal, refFieldTotal, allQualifiedMessages]
  rw [sum_map_flatMap]

theorem length_specServiceNodes (pkg : String) (srv : ServiceDescriptorProto) :
    (specServiceNodes pkg srv).length = 1 + srv.method.length := by
  simp [specServiceNodes]
  omega

theorem length_specMessageNodes (pre : String) (m : DescriptorProto) :
    (specMessageNodes pre m).length = (qualifiedMessages m pre).length := by
  simp [specMessageNodes]

theorem length_specFileNodes (f : FileDescriptorProto) :
    (specFileNodes f).length
      = (f.service.length + (f.service.map (fun s => s.method.length)).sum)
        + (f.messageType.flatMap (fun m => qualifiedMessages m ("." ++ f.package))).length := by
  simp only [specFileNodes, List.length_append, List.length_flatMap, Function.comp_def,
             length_specServiceNodes, length_specMessageNodes]
  rw [sum_map_add_fun, sum_map_one]

theorem length_specNodes (req : CodeGeneratorRequest) :
    (specNodes req).length = serviceTotal req + methodTotal req + messageTotal req := by
  simp only [specNodes, List.length_flatMap, Function.comp_def, length_specFileNodes]
  rw [sum_map_add_fun, sum_map_add_fun]
  simp only [serviceTotal, methodTotal, messageTotal, allQualifiedMessages,
             List.length_flatMap, Function.comp_def]

/-! ## Dump round-trip lemmas -/

theorem jsonToFieldDescriptor_roundTrip (fd : FieldDescriptorProto) :
    jsonToFieldDescriptor (fieldDescriptorToJson fd) = some fd := rfl

theorem jsonToFieldList_roundTrip (fds : List FieldDescriptorProto) :
    jsonToFieldList (fds.map fieldDescriptorToJson) = some fds := by
  induction fds with
  | nil => rfl
  | cons fd rest ih =>
    simp only [List.map_cons, jsonToFieldList, jsonToFieldDescriptor_roundTrip, ih]

mutual

theorem jsonToMessage_roundTrip :
    ∀ m : DescriptorProto, jsonToMessage (messageToJson m) = some m
  | .mk nm fields nested => by
    rw [messageToJson, jsonToMessage]
    simp only [jsonToFieldList_roundTrip, jsonToMessageList_roundTrip nested]

theorem jsonToMessageList_roundTrip :
    ∀ ms : List DescriptorProto, jsonToMessageList (messageToJsonList ms) = some ms
  | [] => rfl
  | m :: rest => by
    rw [messageToJsonList, jsonToMessageList, jsonToMessage_roundTrip m,
        jsonToMessageList_roundTrip rest]

end

theorem jsonToMethod_roundTrip (m : MethodDescriptorProto) :
    jsonToMethod (methodToJson m) = some m := rfl

theorem jsonToMethodList_roundTrip (ms : List MethodDescriptorProto) :
    jsonToMethodList (ms.map methodToJson) = some ms := by
  induction ms with
  | nil => rfl
  | cons m rest ih =>
    simp only [List.map_cons, jsonToMethodList, jsonToMethod_roundTrip, ih]

theorem jsonToService_roundTrip (s : ServiceDescriptorProto) :
    jsonToService (serviceToJson s) = some s := by
  simp only [serviceToJson, jsonToService, jsonToMethodList_roundTrip]
  rfl

theorem jsonToServiceList_roundTrip (ss : List ServiceDescriptorProto) :
    jsonToServiceList (ss.map serviceToJson) = some ss := by
  induction ss with
  | nil => rfl
  | cons s rest ih =>
    simp only [List.map_cons, jsonToServiceList, jsonToService_roundTrip, ih]

theorem jsonToFile_roundTrip (f : FileDescriptorProto) :
    jsonToFile (fileToJson f) = some f := by
  simp only [fileToJson, jsonToFile, jsonToMessageList_roundTrip,
             jsonToServiceList_roundTrip]

theorem jsonToFileList_roundTrip (fs : List FileDescriptorProto) :
    jsonToFileList (fs.map fileToJson) = some fs := by
  induction fs with
  | nil => rfl
  | cons f rest ih =>
    simp only [List.map_cons, jsonToFileList, jsonToFile_roundTrip, ih]

theorem jsonToStringList_roundTrip (ss : List String) :
    jsonToStringList (ss.map Json.str) = some ss := by
  induction ss with
  | nil => rfl
  | cons s rest ih =>
    simp only [List.map_cons, jsonToStringList, ih]
    rfl

theorem jsonToRequest_roundTrip (req : CodeGeneratorRequest) :
    jsonToRequest (requestToJson req) = some req := by
  simp only [requestToJson, jsonToRequest, jsonToStringList_roundTrip,
             jsonToFileList_roundTrip]

/-! ## Characterizing processRequest -/

/-- The three artifacts, in the order `processRequest` appends them. -/
def dumpFile (req : CodeGeneratorRequest) : CodeGeneratorResponse_File :=
  { name := "request_dump.json", content := (requestToJson req).render }

def statsFile (req : CodeGeneratorRequest) : CodeGeneratorResponse_File :=
  { name := "request_stats.txt", content := statsContent (computeStats req) }

def graphFile (req : CodeGeneratorRequest) : CodeGeneratorResponse_File :=
  { name := "entity_graph.dot",
    content := "digraph entities \x7b\n\n" ++ String.join (graphNodeLines req)
      ++ "\n" ++ String.join (graphEdgeLines req) ++ "\n\x7d" }

theorem recordRequest_eq (req : CodeGeneratorRequest) :
    recordRequest req = .ok (dumpFile req) := rfl

theorem recordStats_eq (req : CodeGeneratorRequest) :
    recordStats req = .ok (statsFile req) := rfl

theorem generateGraph_eq (req : CodeGeneratorRequest) :
    generateGraph req = .ok (graphFile req) := rfl

theorem processRequest_eq (req : CodeGeneratorRequest) :
    processRequest req
      = .ok { supportedFeatures := FEATURE_PROTO3_OPTIONAL,
              file := [dumpFile req, statsFile req, graphFile req] } := rfl

/-! ## Concrete requests used by witnesses and counterexamples -/

/-- A small request: package `p`, a message `M` with one message-typed
field referencing `.p.N`, and a service `S` with one method `R`. -/
def sampleReq : CodeGeneratorRequest :=
  { fileToGenerate := ["a.proto"],
    parameter := "",
    protoFile := [{ name := "a.proto", package := "p",
                    messageType := [.mk "M" [⟨"f", 1, 11, ".p.N"⟩] []],
                    service := [⟨"S", [⟨"R", ".p.M", ".p.M"⟩]⟩] }] }

/-- A request whose one file declares two services that share the name
`S`, so both get the qualified name `.p.S`. -/
def dupReq : CodeGeneratorRequest :=
  { fileToGenerate := [],
    parameter := "",
    protoFile := [{ name := "d.proto", package := "p",
                    messageType := [],
                    service := [⟨"S", []⟩, ⟨"S", []⟩] }] }

/-! ## The claims -/

/-- Claim C1: for every well-formed decoded Request, `processRequest`
returns a Response whose File sequence contains exactly 3 entries, in
the fixed order: the raw-request dump named "request_dump.json", the
stats report named "request_stats.txt", and the entity graph named
"entity_graph.dot". -/
theorem claim_C1 (req : CodeGeneratorRequest) :
    ∃ resp : CodeGeneratorResponse,
      processRequest req = .ok resp
      ∧ resp.file = [dumpFile req, statsFile req, graphFile req]
      ∧ resp.file.map (fun f => f.name)
          = ["request_dump.json", "request_stats.txt", "entity_graph.dot"]
      ∧ resp.file.length = 3 := by
  refine ⟨_, processRequest_eq req, rfl, rfl, rfl⟩

/-- Claim C2: the stats counters satisfy: files is the number of
FileDescriptors; services is the sum over files of their service
counts; methods the sum over services of their method counts; messages
the sum over files of their top-level message counts (nested messages
not counted); fields the sum over those same top-level messages of
their direct field counts. -/
theorem claim_C2 (req : CodeGeneratorRequest) :
    (computeStats req).numFiles = req.protoFile.length
    ∧ (computeStats req).numServices
        = (req.protoFile.map (fun f => f.service.length)).sum
    ∧ (computeStats req).numMethods
        = (req.protoFile.map (fun f => (f.service.map (fun s => s.method.length)).sum)).sum
    ∧ (computeStats req).numMessages
        = (req.protoFile.map (fun f => f.messageType.length)).sum
    ∧ (computeStats req).numFields
        = (req.protoFile.map
            (fun f => (f.messageType.map (fun m => m.field.length)).sum)).sum := by
  rw [computeStats_eq]
  exact ⟨rfl, rfl, rfl, rfl, rfl⟩

/-- Claim C3: the graph artifact's edge section consists of exactly 3
edges per method (service to method dashed; method to input type dashed
and red; method to output type dashed and blue), exactly one plain edge
per field whose type tag is "message" and whose type-name reference is
non-empty (from the enclosing message's qualified name to the
referenced type name), and zero edges for scalar- or enum-typed fields;
in particular the edge count is 3·methods + qualifying fields. -/
theorem claim_C3 (req : CodeGeneratorRequest) :
    graphEdgeLines req = specEdges req
    ∧ (graphEdgeLines req).length = 3 * methodTotal req + refFieldTotal req := by
  refine ⟨graphEdgeLines_eq req, ?_⟩
  rw [graphEdgeLines_eq, length_specEdges]

/-- Claim C4: the graph artifact declares one diamond node per service
(identifier the service's qualified name), one circle node per method
(identifier the service's qualified name, ".", method name), and one
square node per message at every nesting depth (identifier built by
recursively prefixing the parent's qualified name). -/
theorem claim_C4 (req : CodeGeneratorRequest) :
    graphNodeLines req = specNodes req :=
  graphNodeLines_eq req

/-- Claim C5, counterexample: a request with two services that share a
qualified name produces two identical node declarations, so the node
declarations are not one-per-distinct-qualified-name. -/
theorem claim_C5_counterexample : ¬ (graphNodeLines dupReq).Nodup := by
  have h : graphNodeLines dupReq
      = [diamondNodeLine ".p.S", diamondNodeLine ".p.S"] := rfl
  rw [h]
  intro hn
  exact (List.nodup_cons.mp hn).1 (List.mem_singleton.mpr rfl)

/-- Claim C5, amended: the graph artifact contains exactly one node
declaration per service, per method, and per message at every nesting
depth (one per entity occurrence); declarations are not deduplicated,
so there is exactly one declaration per distinct qualified name — with
no duplicates — whenever the per-entity declarations are pairwise
distinct (in particular whenever no two entities share a qualified
name). -/
theorem claim_C5 (req : CodeGeneratorRequest) :
    (graphNodeLines req).length
        = serviceTotal req + methodTotal req + messageTotal req
    ∧ ((specNodes req).Nodup → (graphNodeLines req).Nodup) := by
  refine ⟨?_, ?_⟩
  · rw [graphNodeLines_eq, length_specNodes]
  · intro h
    rw [graphNodeLines_eq]
    exact h

theorem claim_C5_witness :
    (graphNodeLines sampleReq).length
        = serviceTotal sampleReq + methodTotal sampleReq + messageTotal sampleReq
    ∧ (graphNodeLines sampleReq).Nodup :=
  ⟨(claim_C5 sampleReq).1, (claim_C5 sampleReq).2 (by decide)⟩

/-- Claim C6: the dump artifact is a lossless projection of the
Request: parsing it back (at the level of its JSON syntax tree, i.e.
modulo whitespace/formatting) yields the original Request field for
field. -/
theorem claim_C6 (req : CodeGeneratorRequest) :
    recordRequest req = .ok (dumpFile req)
    ∧ (dumpFile req).content = (requestToJson req).render
    ∧ jsonToRequest (requestToJson req) = some req :=
  ⟨rfl, rfl, jsonToRequest_roundTrip req⟩

/-- Claim C7: the program is deterministic — the response, including
all three artifact contents, is a function of the decoded input alone:
two runs on identical input yield identical output.  (The source
iterates only over ordered repeated fields, never over unordered maps,
which is what lets the whole pipeline be embedded as this pure
function.) -/
theorem claim_C7 (req₁ req₂ : CodeGeneratorRequest) (h : req₁ = req₂) :
    processRequest req₁ = processRequest req₂ := by
  rw [h]

theorem claim_C7_witness : processRequest sampleReq = processRequest sampleReq :=
  claim_C7 sampleReq sampleReq rfl

/-- Claim C8: the Response's SupportedFeatures bitmask has the
FEATURE_PROTO3_OPTIONAL bit set (support for explicit proto3-optional
field presence). -/
theorem claim_C8 (req : CodeGeneratorRequest) (resp : CodeGeneratorResponse)
    (h : processRequest req = .ok resp) :
    resp.supportedFeatures &&& FEATURE_PROTO3_OPTIONAL = FEATURE_PROTO3_OPTIONAL := by
  rw [processRequest_eq] at h
  cases h
  show FEATURE_PROTO3_OPTIONAL &&& FEATURE_PROTO3_OPTIONAL = FEATURE_PROTO3_OPTIONAL
  decide

theorem claim_C8_witness :
    (CodeGeneratorResponse.mk FEATURE_PROTO3_OPTIONAL
        [dumpFile sampleReq, statsFile sampleReq, graphFile sampleReq]).supportedFeatures
      &&& FEATURE_PROTO3_OPTIONAL = FEATURE_PROTO3_OPTIONAL :=
  claim_C8 sampleReq _ rfl

/-- Claim C9: the stats artifact is plain text: a header line followed
by the five counters, each on its own labeled line, in the fixed order
files, services, methods, messages, fields. -/
theorem claim_C9 (req : CodeGeneratorRequest) :
    recordStats req = .ok (statsFile req)
    ∧ (statsFile req).content
        = "stats for code generation request\n"
          ++ "num files: " ++ toString req.protoFile.length ++ "\n"
          ++ "num services: " ++ toString (serviceTotal req) ++ "\n"
          ++ "num methods: " ++ toString (methodTotal req) ++ "\n"
          ++ "num messages: " ++ toString (topLevelMessageTotal req) ++ "\n"
          ++ "num fields: " ++ toString (topLevelFieldTotal req) ++ "\n" := by
  refine ⟨rfl, ?_⟩
  show statsContent (computeStats req) = _
  rw [computeStats_eq]
  simp [statsContent, String.append_assoc]

/-- Claim C10: the three generator functions always return without
error, so `processRequest`'s error branches are unreachable and it
always returns a response. -/
theorem claim_C10 (req : CodeGeneratorRequest) :
    (∃ f, recordRequest req = .ok f)
    ∧ (∃ f, recordStats req = .ok f)
    ∧ (∃ f, generateGraph req = .ok f)
    ∧ (∃ resp, processRequest req = .ok resp) :=
  ⟨⟨dumpFile req, rfl⟩, ⟨statsFile req, rfl⟩, ⟨graphFile req, rfl⟩,
   ⟨_, processRequest_eq req⟩⟩

end PluginExample
